import Mathlib

/-!
Verification development for the zabbix-api Rust client library.

The development shallowly embeds the core of the library:
the JSON-RPC envelope codec (src/client/response.rs, src/client/jsonrpc.rs,
src/client/request.rs, src/client/v7/request.rs), the transport adapter
(src/client/post.rs), the error taxonomy (src/error.rs) and the dispatcher
operations (src/client/client.rs, src/client/v6/mod.rs).

JSON values are modelled by an inductive `Json` type; serde-derived
deserializers are modelled by explicit decoding functions with the serde
semantics (required fields, `Option` fields treating a missing key and an
explicit null alike, integer width checks for `i8`/`i32` fields).
The HTTP exchange itself is I/O, so every operation takes the outcome of
the exchange as a parameter: `Except String (HttpResponse B)`, where the
`.error` case stands for a reqwest transport failure and `HttpResponse`
carries the status code and the (already JSON-parsed) body.
-/

namespace ZabbixApi

/-- Model of a JSON value (numbers restricted to integers, which covers
every numeric field of the protocol: `id`, `error.code`). -/
inductive Json where
  | null : Json
  | bool : Bool → Json
  | num : Int → Json
  | str : String → Json
  | arr : List Json → Json
  | obj : List (String × Json) → Json

/-- Field lookup in a JSON object field list (first match). -/
def lookupField (fields : List (String × Json)) (k : String) : Option Json :=
  match fields with
  | [] => none
  | (k1, v) :: rest => if k1 = k then some v else lookupField rest k

/-- Lookup of a field of a JSON value; `none` for non-objects. -/
def Json.getField (j : Json) (k : String) : Option Json :=
  match j with
  | .obj fields => lookupField fields k
  | _ => none

/-- Whether a serialized JSON object contains a given key at all. -/
def Json.hasField (j : Json) (k : String) : Bool :=
  match j with
  | .obj fields => fields.any (fun p => p.1 = k)
  | _ => false

/-- Decoder for a JSON string (serde: `String`). -/
def decodeString (j : Json) : Except String String :=
  match j with
  | .str s => .ok s
  | _ => .error "expected string"

/-- Decoder for an `i8` field (serde checks the range). -/
def decodeI8 (j : Json) : Except String Int :=
  match j with
  | .num n => if -128 ≤ n ∧ n < 128 then .ok n else .error "i8 out of range"
  | _ => .error "expected integer"

/-- Decoder for an `i32` field (serde checks the range). -/
def decodeI32 (j : Json) : Except String Int :=
  match j with
  | .num n =>
      if -2147483648 ≤ n ∧ n < 2147483648 then .ok n else .error "i32 out of range"
  | _ => .error "expected integer"

/-- Elementwise decoding of a JSON array body into Rust `Vec<String>`;
the first failing element aborts, as in serde. -/
def decodeStrings (xs : List Json) : Except String (List String) :=
  match xs with
  | [] => .ok []
  | j :: rest =>
    match decodeString j with
    | .error e => .error e
    | .ok s =>
      match decodeStrings rest with
      | .error e => .error e
      | .ok ss => .ok (s :: ss)

/-- Decoder for `Vec<String>`. -/
def decodeStringList (j : Json) : Except String (List String) :=
  match j with
  | .arr xs => decodeStrings xs
  | _ => .error "expected array"

/-- Required field access, as serde's missing-field error. -/
def requireField (fields : List (String × Json)) (k : String) : Except String Json :=
  match lookupField fields k with
  | some v => .ok v
  | none => .error ("missing field " ++ k)

/-- Serde semantics of an `Option<R>` struct field: a missing key and an
explicit null both give `none`; otherwise the payload decoder runs. -/
def decodeOptField (R : Type) (dec : Json → Except String R)
    (fields : List (String × Json)) (k : String) : Except String (Option R) :=
  match lookupField fields k with
  | none => .ok none
  | some .null => .ok none
  | some v =>
    match dec v with
    | .error e => .error e
    | .ok r => .ok (some r)

/-- Remote error detail: struct `ZabbixError` of src/error.rs
(`code: i32`, `message: String`, `data: String`). -/
structure ZabbixError where
  code : Int
  message : String
  data : String
deriving DecidableEq

/-- Error taxonomy: enum `ZabbixApiError` of src/error.rs. The payloads of
`NetworkError` (a reqwest error) and `UnsupportedApiError` (a serde_json
error) are modelled by their message strings. -/
inductive ZabbixApiError where
  | NetworkError (message : String)
  | UnsupportedApiError (message : String)
  | ApiCallError (zabbix : ZabbixError)
  | BadRequestError
  | Error
deriving DecidableEq

/-- Decoder for `ZabbixError` as derived by serde: all three fields
required, unknown fields ignored. -/
def decodeZabbixError (j : Json) : Except String ZabbixError :=
  match j with
  | .obj fields =>
    match requireField fields "code" with
    | .error e => .error e
    | .ok cj =>
      match decodeI32 cj with
      | .error e => .error e
      | .ok c =>
        match requireField fields "message" with
        | .error e => .error e
        | .ok mj =>
          match decodeString mj with
          | .error e => .error e
          | .ok m =>
            match requireField fields "data" with
            | .error e => .error e
            | .ok dj =>
              match decodeString dj with
              | .error e => .error e
              | .ok d => .ok { code := c, message := m, data := d }
  | _ => .error "expected object"

/-- Response envelope: struct `ZabbixApiResponse<R>` of
src/client/response.rs (identical in src/client/jsonrpc.rs):
`jsonrpc: String`, `result: Option<R>`, `id: i8`,
`error: Option<ZabbixError>`. -/
structure ZabbixApiResponse (R : Type) where
  jsonrpc : String
  result : Option R
  id : Int
  error : Option ZabbixError

/-- Serde-derived decoder for `ZabbixApiResponse<R>`, parameterized by the
decoder of the result type (the `R: DeserializeOwned` dictionary):
`jsonrpc` and `id` are required, `result` and `error` are `Option` fields. -/
def decodeResponse (R : Type) (decodeR : Json → Except String R) (j : Json) :
    Except String (ZabbixApiResponse R) :=
  match j with
  | .obj fields =>
    match requireField fields "jsonrpc" with
    | .error e => .error e
    | .ok vj =>
      match decodeString vj with
      | .error e => .error e
      | .ok v =>
        match requireField fields "id" with
        | .error e => .error e
        | .ok ij =>
          match decodeI8 ij with
          | .error e => .error e
          | .ok i =>
            match decodeOptField R decodeR fields "result" with
            | .error e => .error e
            | .ok r =>
              match decodeOptField ZabbixError decodeZabbixError fields "error" with
              | .error e => .error e
              | .ok eo => .ok { jsonrpc := v, result := r, id := i, error := eo }
  | _ => .error "expected object"

/-! ## Transport adapter (src/client/post.rs) -/

/-- An HTTP response as observed by the client: status code and body.
The body type is a parameter: `String` models the raw text the code reads,
`Json` models a body whose textual JSON form has been parsed. -/
structure HttpResponse (B : Type) where
  status : Nat
  body : B

/-- The constant `JSON_RPC_VERSION` of src/client/request.rs and
src/client/v6/mod.rs. -/
def JSON_RPC_VERSION : String := "2.0"

/-- The constant header name of src/client/post.rs. -/
def CONTENT_TYPE_HEADER : String := "Content-Type"

/-- The constant header value of src/client/post.rs. -/
def CONTENT_TYPE_JSON : String := "application/json"

/-- Function `send_post_request` of src/client/post.rs, post-exchange part:
a reqwest failure (the `.error` case of the exchange) maps to
`NetworkError`; an exchange with status `OK` (200) returns the body
unchanged; any other status returns `BadRequestError` without ever looking
at the body. The v6 snapshot's `send_post_request` has the identical
status logic. -/
def send_post_request (B : Type) (exchange : Except String (HttpResponse B)) :
    Except ZabbixApiError B :=
  match exchange with
  | .error e => .error (.NetworkError e)
  | .ok response =>
    if response.status = 200 then .ok response.body
    else .error .BadRequestError

/-- The outgoing HTTP request as built by `send_post_request` before
sending: headers, optional bearer credential, body. -/
structure HttpRequestOut (B : Type) where
  headers : List (String × String)
  bearer : Option String
  body : B

/-- Request-building part of `send_post_request` under the `v7` feature
(src/client/post.rs lines 20-33): JSON content type header, and the
session token, when present, attached as a bearer credential. -/
def build_http_request_v7 (B : Type) (body : B) (session : Option String) :
    HttpRequestOut B :=
  { headers := [(CONTENT_TYPE_HEADER, CONTENT_TYPE_JSON)]
    bearer := session
    body := body }

/-- Request-building part of `send_post_request` when only the `v6`
feature is enabled: no bearer credential is ever attached; the token
travels inside the body. -/
def build_http_request_v6 (B : Type) (body : B) (_session : Option String) :
    HttpRequestOut B :=
  { headers := [(CONTENT_TYPE_HEADER, CONTENT_TYPE_JSON)]
    bearer := none
    body := body }

/-! ## Request envelope (src/client/request.rs, src/client/v7/request.rs,
src/client/jsonrpc.rs) -/

/-- Struct `ZabbixApiRequest<T>` of src/client/v7/request.rs: no `auth`
field exists at all. -/
structure ZabbixApiRequestV7 (T : Type) where
  jsonrpc : String
  method : String
  params : T
  id : Int

/-- Struct `ZabbixApiRequest<T>` of src/client/jsonrpc.rs (the legacy v6
request): an in-body `auth: Option<String>` field. -/
structure ZabbixApiRequestV6 (T : Type) where
  jsonrpc : String
  method : String
  params : T
  id : Int
  auth : Option String

/-- Function `get_api_request` of src/client/request.rs under the `v7`
feature: the session argument is ignored and the built request has no
auth field. -/
def get_api_request_v7 (T : Type) (method : String) (params : T)
    (_session : Option String) : ZabbixApiRequestV7 T :=
  { jsonrpc := JSON_RPC_VERSION, method := method, params := params, id := 1 }

/-- Function `get_api_request` of src/client/request.rs under the `v6`
feature: the session is embedded as the in-body auth field. -/
def get_api_request_v6 (T : Type) (method : String) (params : T)
    (session : Option String) : ZabbixApiRequestV6 T :=
  { jsonrpc := JSON_RPC_VERSION, method := method, params := params, id := 1
    auth := session }

/-- Serde serialization of the v7 request struct: fields in declaration
order, no auth key. `serT` is the `T: Serialize` dictionary. -/
def serializeRequestV7 (T : Type) (serT : T → Json) (r : ZabbixApiRequestV7 T) :
    Json :=
  .obj [("jsonrpc", .str r.jsonrpc), ("method", .str r.method),
        ("params", serT r.params), ("id", .num r.id)]

/-- Serde serialization of the v6 request struct: the `auth` field has no
skip attribute, so `None` serializes as an explicit null and `Some tok`
as the token string. -/
def serializeRequestV6 (T : Type) (serT : T → Json) (r : ZabbixApiRequestV6 T) :
    Json :=
  .obj [("jsonrpc", .str r.jsonrpc), ("method", .str r.method),
        ("params", serT r.params), ("id", .num r.id),
        ("auth", match r.auth with
                 | none => Json.null
                 | some s => Json.str s)]

/-! ## Dispatcher operations (src/client/client.rs; the v6 snapshot in
src/client/v6/mod.rs has the identical post-exchange logic for each
operation, so one definition embeds both).

Every operation first runs `send_post_request` on the exchange outcome,
then decodes the body with `serde_json::from_str` — whose failure the `?`
operator converts to `UnsupportedApiError` via the `#[from]` conversion in
src/error.rs — and then matches `result` before `error`. -/

/-- Method `raw_api_call` of src/client/client.rs (lines 1003-1046) and of
src/client/v6/mod.rs (lines 141-185): on a decoded envelope with `result`
present the whole envelope is returned as success; otherwise a present
`error` detail is wrapped in `ApiCallError`; otherwise `BadRequestError`. -/
def raw_api_call (R : Type) (decodeR : Json → Except String R)
    (exchange : Except String (HttpResponse Json)) :
    Except ZabbixApiError (ZabbixApiResponse R) :=
  match send_post_request Json exchange with
  | .error e => .error e
  | .ok body =>
    match decodeResponse R decodeR body with
    | .error e => .error (.UnsupportedApiError e)
    | .ok response =>
      match response.result with
      | some _ => .ok response
      | none =>
        match response.error with
        | some err => .error (.ApiCallError err)
        | none => .error .BadRequestError

/-- Method `get_api_info` of src/client/client.rs (lines 936-965): the
version lookup, a typed call with result type `String`. -/
def get_api_info (exchange : Except String (HttpResponse Json)) :
    Except ZabbixApiError String :=
  match send_post_request Json exchange with
  | .error e => .error e
  | .ok body =>
    match decodeResponse String decodeString body with
    | .error e => .error (.UnsupportedApiError e)
    | .ok response =>
      match response.result with
      | some api_version => .ok api_version
      | none =>
        match response.error with
        | some err => .error (.ApiCallError err)
        | none => .error .BadRequestError

/-- Method `get_auth_session` of src/client/client.rs (lines 967-1001):
login, a typed call with result type `String` (the session token). -/
def get_auth_session (exchange : Except String (HttpResponse Json)) :
    Except ZabbixApiError String :=
  match send_post_request Json exchange with
  | .error e => .error e
  | .ok body =>
    match decodeResponse String decodeString body with
    | .error e => .error (.UnsupportedApiError e)
    | .ok response =>
      match response.result with
      | some session => .ok session
      | none =>
        match response.error with
        | some err => .error (.ApiCallError err)
        | none => .error .BadRequestError

/-- Shared shape of the typed get methods of src/client/client.rs
(`get_host_groups`, `get_hosts`, `get_items`, `get_triggers`,
`get_webscenarios`, `get_users`, `get_user_groups`, `delete_hosts`): each
fixes a concrete result type `R` and returns the decoded `result` value on
success; the error handling is identical across all of them. -/
def typed_get_call (R : Type) (decodeR : Json → Except String R)
    (exchange : Except String (HttpResponse Json)) :
    Except ZabbixApiError R :=
  match send_post_request Json exchange with
  | .error e => .error e
  | .ok body =>
    match decodeResponse R decodeR body with
    | .error e => .error (.UnsupportedApiError e)
    | .ok response =>
      match response.result with
      | some results => .ok results
      | none =>
        match response.error with
        | some err => .error (.ApiCallError err)
        | none => .error .BadRequestError

/-- Struct `ZabbixHostGroup` of src/hostgroup/model.rs: `name: String`
and `group_id: String` (wire name "groupid"). -/
structure ZabbixHostGroup where
  name : String
  group_id : String

/-- Serde-derived decoder for `ZabbixHostGroup`. -/
def decodeZabbixHostGroup (j : Json) : Except String ZabbixHostGroup :=
  match j with
  | .obj fields =>
    match requireField fields "name" with
    | .error e => .error e
    | .ok nj =>
      match decodeString nj with
      | .error e => .error e
      | .ok n =>
        match requireField fields "groupid" with
        | .error e => .error e
        | .ok gj =>
          match decodeString gj with
          | .error e => .error e
          | .ok g => .ok { name := n, group_id := g }
  | _ => .error "expected object"

/-- Elementwise decoding of `Vec<ZabbixHostGroup>`. -/
def decodeZabbixHostGroups (xs : List Json) : Except String (List ZabbixHostGroup) :=
  match xs with
  | [] => .ok []
  | j :: rest =>
    match decodeZabbixHostGroup j with
    | .error e => .error e
    | .ok g =>
      match decodeZabbixHostGroups rest with
      | .error e => .error e
      | .ok gs => .ok (g :: gs)

/-- Decoder for `Vec<ZabbixHostGroup>`. -/
def decodeZabbixHostGroupList (j : Json) : Except String (List ZabbixHostGroup) :=
  match j with
  | .arr xs => decodeZabbixHostGroups xs
  | _ => .error "expected array"

/-- Method `get_host_groups` of src/client/client.rs (lines 1054-1104):
the typed get with result type `Vec<ZabbixHostGroup>`. -/
def get_host_groups (exchange : Except String (HttpResponse Json)) :
    Except ZabbixApiError (List ZabbixHostGroup) :=
  match send_post_request Json exchange with
  | .error e => .error e
  | .ok body =>
    match decodeResponse (List ZabbixHostGroup) decodeZabbixHostGroupList body with
    | .error e => .error (.UnsupportedApiError e)
    | .ok response =>
      match response.result with
      | some results => .ok results
      | none =>
        match response.error with
        | some err => .error (.ApiCallError err)
        | none => .error .BadRequestError

/-! ## Create operations and id extraction -/

/-- Sign handling of Rust's unsigned integer parsing: an optional leading
plus sign is stripped; a minus sign is not accepted for `u32` (it is left
in place here and rejected by the digit check). -/
def stripPlus (cs : List Char) : List Char :=
  match cs with
  | c :: rest => if c = '+' then rest else c :: rest
  | [] => []

/-- Accumulated decimal value of a digit string. -/
def digitsValue (cs : List Char) : Nat :=
  cs.foldl (fun a c => a * 10 + (c.toNat - 48)) 0

/-- Rust's `str::parse::<u32>()` on the character list of the input: an
optional leading plus sign, then one or more ASCII decimal digits, value
bounded by the 32-bit unsigned range; everything else (empty input, other
characters, overflow) fails. -/
def parseU32 (s : String) : Option Nat :=
  if stripPlus s.data = [] then none
  else if (stripPlus s.data).all (fun c => c.isDigit) then
    if digitsValue (stripPlus s.data) < 4294967296 then
      some (digitsValue (stripPlus s.data))
    else none
  else none

/-- Struct `CreateHostGroupResponse` of src/hostgroup/create.rs:
`group_ids: Vec<String>` with wire name "groupids". -/
structure CreateHostGroupResponse where
  group_ids : List String

/-- Serde-derived decoder for `CreateHostGroupResponse`. -/
def decodeCreateHostGroupResponse (j : Json) : Except String CreateHostGroupResponse :=
  match j with
  | .obj fields =>
    match requireField fields "groupids" with
    | .error e => .error e
    | .ok ij =>
      match decodeStringList ij with
      | .error e => .error e
      | .ok ids => .ok { group_ids := ids }
  | _ => .error "expected object"

/-- Struct `CreateHostResponse` of src/host/create.rs:
`host_ids: Vec<String>` with wire name "hostids". -/
structure CreateHostResponse where
  host_ids : List String

/-- Serde-derived decoder for `CreateHostResponse`. -/
def decodeCreateHostResponse (j : Json) : Except String CreateHostResponse :=
  match j with
  | .obj fields =>
    match requireField fields "hostids" with
    | .error e => .error e
    | .ok ij =>
      match decodeStringList ij with
      | .error e => .error e
      | .ok ids => .ok { host_ids := ids }
  | _ => .error "expected object"

/-- Struct `CreateItemResponse` of src/item/create.rs:
`item_ids: Vec<String>` with wire name "itemids". -/
structure CreateItemResponse where
  item_ids : List String

/-- Serde-derived decoder for `CreateItemResponse`. -/
def decodeCreateItemResponse (j : Json) : Except String CreateItemResponse :=
  match j with
  | .obj fields =>
    match requireField fields "itemids" with
    | .error e => .error e
    | .ok ij =>
      match decodeStringList ij with
      | .error e => .error e
      | .ok ids => .ok { item_ids := ids }
  | _ => .error "expected object"

/-- Struct `CreateTriggerResponse` of src/trigger/create.rs:
`trigger_ids: Vec<String>` with wire name "triggerids". -/
structure CreateTriggerResponse where
  trigger_ids : List String

/-- Serde-derived decoder for `CreateTriggerResponse`. -/
def decodeCreateTriggerResponse (j : Json) : Except String CreateTriggerResponse :=
  match j with
  | .obj fields =>
    match requireField fields "triggerids" with
    | .error e => .error e
    | .ok ij =>
      match decodeStringList ij with
      | .error e => .error e
      | .ok ids => .ok { trigger_ids := ids }
  | _ => .error "expected object"

/-- Struct `CreateWebScenarioResponse` of src/webscenario/create.rs:
`http_test_ids: Vec<String>` with wire name "httptestids". -/
structure CreateWebScenarioResponse where
  http_test_ids : List String

/-- Serde-derived decoder for `CreateWebScenarioResponse`. -/
def decodeCreateWebScenarioResponse (j : Json) :
    Except String CreateWebScenarioResponse :=
  match j with
  | .obj fields =>
    match requireField fields "httptestids" with
    | .error e => .error e
    | .ok ij =>
      match decodeStringList ij with
      | .error e => .error e
      | .ok ids => .ok { http_test_ids := ids }
  | _ => .error "expected object"

/-- Method `create_host_group` of src/client/client.rs (lines 1311-1364)
and of src/client/v6/mod.rs (lines 442-494): on a success envelope,
`result.group_ids.first()` is parsed as `u32`; a missing first element or
a failed parse both produce `ZabbixApiError::Error`. -/
def create_host_group (exchange : Except String (HttpResponse Json)) :
    Except ZabbixApiError Nat :=
  match send_post_request Json exchange with
  | .error e => .error e
  | .ok body =>
    match decodeResponse CreateHostGroupResponse decodeCreateHostGroupResponse body with
    | .error e => .error (.UnsupportedApiError e)
    | .ok response =>
      match response.result with
      | some result =>
        match result.group_ids.head? with
        | some id =>
          match parseU32 id with
          | some v => .ok v
          | none => .error .Error
        | none => .error .Error
      | none =>
        match response.error with
        | some err => .error (.ApiCallError err)
        | none => .error .BadRequestError

/-- Method `create_host` of src/client/client.rs (lines 1372-1424) and of
src/client/v6/mod.rs (lines 501-554). -/
def create_host (exchange : Except String (HttpResponse Json)) :
    Except ZabbixApiError Nat :=
  match send_post_request Json exchange with
  | .error e => .error e
  | .ok body =>
    match decodeResponse CreateHostResponse decodeCreateHostResponse body with
    | .error e => .error (.UnsupportedApiError e)
    | .ok response =>
      match response.result with
      | some result =>
        match result.host_ids.head? with
        | some host_id =>
          match parseU32 host_id with
          | some v => .ok v
          | none => .error .Error
        | none => .error .Error
      | none =>
        match response.error with
        | some err => .error (.ApiCallError err)
        | none => .error .BadRequestError

/-- Method `create_item` of src/client/client.rs (lines 1544-1595) and of
src/client/v6/mod.rs (lines 561-614). -/
def create_item (exchange : Except String (HttpResponse Json)) :
    Except ZabbixApiError Nat :=
  match send_post_request Json exchange with
  | .error e => .error e
  | .ok body =>
    match decodeResponse CreateItemResponse decodeCreateItemResponse body with
    | .error e => .error (.UnsupportedApiError e)
    | .ok response =>
      match response.result with
      | some result =>
        match result.item_ids.head? with
        | some item_id =>
          match parseU32 item_id with
          | some v => .ok v
          | none => .error .Error
        | none => .error .Error
      | none =>
        match response.error with
        | some err => .error (.ApiCallError err)
        | none => .error .BadRequestError

/-- Method `create_trigger` of src/client/client.rs (lines 1607-1659) and
of src/client/v6/mod.rs (lines 621-674). -/
def create_trigger (exchange : Except String (HttpResponse Json)) :
    Except ZabbixApiError Nat :=
  match send_post_request Json exchange with
  | .error e => .error e
  | .ok body =>
    match decodeResponse CreateTriggerResponse decodeCreateTriggerResponse body with
    | .error e => .error (.UnsupportedApiError e)
    | .ok response =>
      match response.result with
      | some result =>
        match result.trigger_ids.head? with
        | some trigger_id =>
          match parseU32 trigger_id with
          | some v => .ok v
          | none => .error .Error
        | none => .error .Error
      | none =>
        match response.error with
        | some err => .error (.ApiCallError err)
        | none => .error .BadRequestError

/-- Method `create_webscenario` of src/client/client.rs (lines 1671-1723)
and of src/client/v6/mod.rs (lines 681-734). -/
def create_webscenario (exchange : Except String (HttpResponse Json)) :
    Except ZabbixApiError Nat :=
  match send_post_request Json exchange with
  | .error e => .error e
  | .ok body =>
    match decodeResponse CreateWebScenarioResponse decodeCreateWebScenarioResponse body with
    | .error e => .error (.UnsupportedApiError e)
    | .ok response =>
      match response.result with
      | some result =>
        match result.http_test_ids.head? with
        | some http_test_id =>
          match parseU32 http_test_id with
          | some v => .ok v
          | none => .error .Error
        | none => .error .Error
      | none =>
        match response.error with
        | some err => .error (.ApiCallError err)
        | none => .error .BadRequestError

/-! ## General decoding lemmas -/

/-- Core decoding lemma: an envelope object with a string "jsonrpc"
field, an in-range integer "id" field, no "result" key and an "error"
key whose optional decoding succeeds, decodes successfully for every
result decoder, with `result := none`. -/
theorem decodeResponse_of_fields (R : Type) (decodeR : Json → Except String R)
    (fields : List (String × Json)) (v : String) (i : Int)
    (eo : Option ZabbixError)
    (hv : lookupField fields "jsonrpc" = some (Json.str v))
    (hi : lookupField fields "id" = some (Json.num i))
    (hlo : -128 ≤ i) (hhi : i < 128)
    (hr : lookupField fields "result" = none)
    (he : decodeOptField ZabbixError decodeZabbixError fields "error" = .ok eo) :
    decodeResponse R decodeR (.obj fields) =
      .ok { jsonrpc := v, result := none, id := i, error := eo } := by
  have hr2 : decodeOptField R decodeR fields "result" = .ok none := by
    simp [decodeOptField, hr]
  simp [decodeResponse, requireField, hv, hi, decodeString, decodeI8, hlo, hhi,
    hr2, he]

/-! ## Claim theorems -/

/-- C1: for every expected result type and every transport exchange that
succeeds with status 200 and a body decoding to an envelope whose
`result` field is present and whose `error` field is absent,
`raw_api_call` returns success carrying exactly the decoded envelope,
hence exactly the decoded result value, unchanged. -/
theorem C1_raw_api_call_success (R : Type) (decodeR : Json → Except String R)
    (body : Json) (resp : ZabbixApiResponse R) (r : R)
    (hdec : decodeResponse R decodeR body = .ok resp)
    (hres : resp.result = some r)
    (_herr : resp.error = none) :
    raw_api_call R decodeR (.ok { status := 200, body := body }) = .ok resp := by
  simp [raw_api_call, send_post_request, hdec, hres]

/-- Witness for C1 at a concrete version-lookup style response. -/
theorem C1_raw_api_call_success_witness :
    raw_api_call String decodeString
      (.ok { status := 200, body := .obj [("jsonrpc", .str "2.0"),
          ("id", .num 1), ("result", .str "6.0.10")] }) =
      .ok { jsonrpc := "2.0", result := some "6.0.10", id := 1, error := none } :=
  C1_raw_api_call_success String decodeString
    (.obj [("jsonrpc", .str "2.0"), ("id", .num 1), ("result", .str "6.0.10")])
    { jsonrpc := "2.0", result := some "6.0.10", id := 1, error := none }
    "6.0.10" rfl rfl rfl

/-- C2: for every response envelope whose `error` field is present and
whose `result` field is absent, every dispatcher operation — the raw
passthrough, the typed gets (of which `get_host_groups` is the concrete
instance and `typed_get_call` the common shape of all of them), version
lookup, login, and each of the five create operations — returns
`ApiCallError` wrapping exactly the received code, message and data. -/
theorem C2_error_envelope_wrapped_exactly
    (fields : List (String × Json)) (v : String) (i : Int) (err : ZabbixError)
    (hv : lookupField fields "jsonrpc" = some (Json.str v))
    (hi : lookupField fields "id" = some (Json.num i))
    (hlo : -128 ≤ i) (hhi : i < 128)
    (hr : lookupField fields "result" = none)
    (he : decodeOptField ZabbixError decodeZabbixError fields "error" =
      .ok (some err)) :
    (∀ (R : Type) (decodeR : Json → Except String R),
      raw_api_call R decodeR (.ok { status := 200, body := .obj fields }) =
        .error (.ApiCallError err)) ∧
    (∀ (R : Type) (decodeR : Json → Except String R),
      typed_get_call R decodeR (.ok { status := 200, body := .obj fields }) =
        .error (.ApiCallError err)) ∧
    get_api_info (.ok { status := 200, body := .obj fields }) =
      .error (.ApiCallError err) ∧
    get_auth_session (.ok { status := 200, body := .obj fields }) =
      .error (.ApiCallError err) ∧
    get_host_groups (.ok { status := 200, body := .obj fields }) =
      .error (.ApiCallError err) ∧
    create_host_group (.ok { status := 200, body := .obj fields }) =
      .error (.ApiCallError err) ∧
    create_host (.ok { status := 200, body := .obj fields }) =
      .error (.ApiCallError err) ∧
    create_item (.ok { status := 200, body := .obj fields }) =
      .error (.ApiCallError err) ∧
    create_trigger (.ok { status := 200, body := .obj fields }) =
      .error (.ApiCallError err) ∧
    create_webscenario (.ok { status := 200, body := .obj fields }) =
      .error (.ApiCallError err) := by
  have hdec : ∀ (R : Type) (decodeR : Json → Except String R),
      decodeResponse R decodeR (.obj fields) =
        .ok { jsonrpc := v, result := none, id := i, error := some err } :=
    fun R decodeR =>
      decodeResponse_of_fields R decodeR fields v i (some err) hv hi hlo hhi hr he
  refine ⟨?_, ?_, ?_, ?_, ?_, ?_, ?_, ?_, ?_, ?_⟩
  · intro R decodeR
    simp [raw_api_call, send_post_request, hdec]
  · intro R decodeR
    simp [typed_get_call, send_post_request, hdec]
  · simp [get_api_info, send_post_request, hdec]
  · simp [get_auth_session, send_post_request, hdec]
  · simp [get_host_groups, send_post_request, hdec]
  · simp [create_host_group, send_post_request, hdec]
  · simp [create_host, send_post_request, hdec]
  · simp [create_item, send_post_request, hdec]
  · simp [create_trigger, send_post_request, hdec]
  · simp [create_webscenario, send_post_request, hdec]

/-- Witness for C2 at a concrete remote validation failure. -/
theorem C2_error_envelope_wrapped_exactly_witness :
    get_auth_session (.ok { status := 200, body := .obj [("jsonrpc", .str "2.0"),
        ("id", .num 1),
        ("error", .obj [("code", .num (-32602)),
          ("message", .str "Invalid params."),
          ("data", .str "duplicate name")])] }) =
      .error (.ApiCallError
        { code := -32602, message := "Invalid params.", data := "duplicate name" }) :=
  (C2_error_envelope_wrapped_exactly
    [("jsonrpc", .str "2.0"), ("id", .num 1),
     ("error", .obj [("code", .num (-32602)),
       ("message", .str "Invalid params."),
       ("data", .str "duplicate name")])]
    "2.0" 1 { code := -32602, message := "Invalid params.", data := "duplicate name" }
    rfl rfl (by decide) (by decide) rfl (by rfl)).2.2.2.1

/-- C3: for every structurally valid response envelope in which both
`result` and `error` are absent, every dispatcher operation returns
`BadRequestError`; since `BadRequestError` is a constructor distinct from
success and from `ApiCallError`, no such call ever returns success or the
remote-call-error kind. -/
theorem C3_protocol_violation_bad_request
    (fields : List (String × Json)) (v : String) (i : Int)
    (hv : lookupField fields "jsonrpc" = some (Json.str v))
    (hi : lookupField fields "id" = some (Json.num i))
    (hlo : -128 ≤ i) (hhi : i < 128)
    (hr : lookupField fields "result" = none)
    (he : lookupField fields "error" = none) :
    (∀ (R : Type) (decodeR : Json → Except String R),
      raw_api_call R decodeR (.ok { status := 200, body := .obj fields }) =
        .error .BadRequestError) ∧
    (∀ (R : Type) (decodeR : Json → Except String R),
      typed_get_call R decodeR (.ok { status := 200, body := .obj fields }) =
        .error .BadRequestError) ∧
    get_api_info (.ok { status := 200, body := .obj fields }) =
      .error .BadRequestError ∧
    get_auth_session (.ok { status := 200, body := .obj fields }) =
      .error .BadRequestError ∧
    get_host_groups (.ok { status := 200, body := .obj fields }) =
      .error .BadRequestError ∧
    create_host_group (.ok { status := 200, body := .obj fields }) =
      .error .BadRequestError ∧
    create_host (.ok { status := 200, body := .obj fields }) =
      .error .BadRequestError ∧
    create_item (.ok { status := 200, body := .obj fields }) =
      .error .BadRequestError ∧
    create_trigger (.ok { status := 200, body := .obj fields }) =
      .error .BadRequestError ∧
    create_webscenario (.ok { status := 200, body := .obj fields }) =
      .error .BadRequestError ∧
    (∀ (R : Type) (x : ZabbixApiResponse R),
      (Except.ok x : Except ZabbixApiError (ZabbixApiResponse R)) ≠
        .error .BadRequestError) ∧
    (∀ z : ZabbixError,
      (ZabbixApiError.BadRequestError : ZabbixApiError) ≠ .ApiCallError z) := by
  have he2 : decodeOptField ZabbixError decodeZabbixError fields "error" =
      .ok none := by
    simp [decodeOptField, he]
  have hdec : ∀ (R : Type) (decodeR : Json → Except String R),
      decodeResponse R decodeR (.obj fields) =
        .ok { jsonrpc := v, result := none, id := i, error := none } :=
    fun R decodeR =>
      decodeResponse_of_fields R decodeR fields v i none hv hi hlo hhi hr he2
  refine ⟨?_, ?_, ?_, ?_, ?_, ?_, ?_, ?_, ?_, ?_, ?_, ?_⟩
  · intro R decodeR
    simp [raw_api_call, send_post_request, hdec]
  · intro R decodeR
    simp [typed_get_call, send_post_request, hdec]
  · simp [get_api_info, send_post_request, hdec]
  · simp [get_auth_session, send_post_request, hdec]
  · simp [get_host_groups, send_post_request, hdec]
  · simp [create_host_group, send_post_request, hdec]
  · simp [create_host, send_post_request, hdec]
  · simp [create_item, send_post_request, hdec]
  · simp [create_trigger, send_post_request, hdec]
  · simp [create_webscenario, send_post_request, hdec]
  · intro R x h
    cases h
  · intro z h
    cases h

/-- Witness for C3 at a concrete empty envelope. -/
theorem C3_protocol_violation_bad_request_witness :
    get_api_info (.ok { status := 200, body := .obj [("jsonrpc", .str "2.0"),
        ("id", .num 1)] }) =
      .error .BadRequestError :=
  (C3_protocol_violation_bad_request
    [("jsonrpc", .str "2.0"), ("id", .num 1)] "2.0" 1
    rfl rfl (by decide) (by decide) rfl rfl).2.2.1

/-- C4: for every create-style operation, given a success envelope: an
empty id list fails with the local postprocessing error, a first element
rejected by the u32 parser fails with the local postprocessing error, and
a first element accepted by the u32 parser (a well-formed numeric decimal
string within the unsigned 32-bit range, with an optional leading plus
sign) yields the parsed unsigned integer. -/
theorem C4_create_id_extraction :
    (∀ (body : Json) (resp : ZabbixApiResponse CreateHostGroupResponse)
      (cr : CreateHostGroupResponse),
      decodeResponse CreateHostGroupResponse decodeCreateHostGroupResponse body =
        .ok resp →
      resp.result = some cr →
      (cr.group_ids = [] →
        create_host_group (.ok { status := 200, body := body }) = .error .Error) ∧
      (∀ s rest, cr.group_ids = s :: rest → parseU32 s = none →
        create_host_group (.ok { status := 200, body := body }) = .error .Error) ∧
      (∀ s rest n, cr.group_ids = s :: rest → parseU32 s = some n →
        create_host_group (.ok { status := 200, body := body }) = .ok n)) ∧
    (∀ (body : Json) (resp : ZabbixApiResponse CreateHostResponse)
      (cr : CreateHostResponse),
      decodeResponse CreateHostResponse decodeCreateHostResponse body = .ok resp →
      resp.result = some cr →
      (cr.host_ids = [] →
        create_host (.ok { status := 200, body := body }) = .error .Error) ∧
      (∀ s rest, cr.host_ids = s :: rest → parseU32 s = none →
        create_host (.ok { status := 200, body := body }) = .error .Error) ∧
      (∀ s rest n, cr.host_ids = s :: rest → parseU32 s = some n →
        create_host (.ok { status := 200, body := body }) = .ok n)) ∧
    (∀ (body : Json) (resp : ZabbixApiResponse CreateItemResponse)
      (cr : CreateItemResponse),
      decodeResponse CreateItemResponse decodeCreateItemResponse body = .ok resp →
      resp.result = some cr →
      (cr.item_ids = [] →
        create_item (.ok { status := 200, body := body }) = .error .Error) ∧
      (∀ s rest, cr.item_ids = s :: rest → parseU32 s = none →
        create_item (.ok { status := 200, body := body }) = .error .Error) ∧
      (∀ s rest n, cr.item_ids = s :: rest → parseU32 s = some n →
        create_item (.ok { status := 200, body := body }) = .ok n)) ∧
    (∀ (body : Json) (resp : ZabbixApiResponse CreateTriggerResponse)
      (cr : CreateTriggerResponse),
      decodeResponse CreateTriggerResponse decodeCreateTriggerResponse body =
        .ok resp →
      resp.result = some cr →
      (cr.trigger_ids = [] →
        create_trigger (.ok { status := 200, body := body }) = .error .Error) ∧
      (∀ s rest, cr.trigger_ids = s :: rest → parseU32 s = none →
        create_trigger (.ok { status := 200, body := body }) = .error .Error) ∧
      (∀ s rest n, cr.trigger_ids = s :: rest → parseU32 s = some n →
        create_trigger (.ok { status := 200, body := body }) = .ok n)) ∧
    (∀ (body : Json) (resp : ZabbixApiResponse CreateWebScenarioResponse)
      (cr : CreateWebScenarioResponse),
      decodeResponse CreateWebScenarioResponse decodeCreateWebScenarioResponse
        body = .ok resp →
      resp.result = some cr →
      (cr.http_test_ids = [] →
        create_webscenario (.ok { status := 200, body := body }) = .error .Error) ∧
      (∀ s rest, cr.http_test_ids = s :: rest → parseU32 s = none →
        create_webscenario (.ok { status := 200, body := body }) = .error .Error) ∧
      (∀ s rest n, cr.http_test_ids = s :: rest → parseU32 s = some n →
        create_webscenario (.ok { status := 200, body := body }) = .ok n)) := by
  refine ⟨?_, ?_, ?_, ?_, ?_⟩ <;>
    · intro body resp cr hdec hres
      refine ⟨?_, ?_, ?_⟩
      · intro hids
        simp [create_host_group, create_host, create_item, create_trigger,
          create_webscenario, send_post_request, hdec, hres, hids]
      · intro s rest hids hp
        simp [create_host_group, create_host, create_item, create_trigger,
          create_webscenario, send_post_request, hdec, hres, hids, hp]
      · intro s rest n hids hp
        simp [create_host_group, create_host, create_item, create_trigger,
          create_webscenario, send_post_request, hdec, hres, hids, hp]

/-- Witness for C4: the three branches at concrete bodies. -/
theorem C4_create_id_extraction_witness :
    create_host_group (.ok { status := 200, body := .obj [("jsonrpc", .str "2.0"),
        ("id", .num 1), ("result", .obj [("groupids", .arr [])])] }) =
      .error .Error ∧
    create_host_group (.ok { status := 200, body := .obj [("jsonrpc", .str "2.0"),
        ("id", .num 1), ("result", .obj [("groupids", .arr [.str "abc"])])] }) =
      .error .Error ∧
    create_host_group (.ok { status := 200, body := .obj [("jsonrpc", .str "2.0"),
        ("id", .num 1), ("result", .obj [("groupids", .arr [.str "186"])])] }) =
      .ok 186 :=
  ⟨(C4_create_id_extraction.1
      (.obj [("jsonrpc", .str "2.0"), ("id", .num 1),
        ("result", .obj [("groupids", .arr [])])])
      { jsonrpc := "2.0", result := some { group_ids := [] }, id := 1,
        error := none }
      { group_ids := [] } (by rfl) rfl).1 rfl,
   (C4_create_id_extraction.1
      (.obj [("jsonrpc", .str "2.0"), ("id", .num 1),
        ("result", .obj [("groupids", .arr [.str "abc"])])])
      { jsonrpc := "2.0", result := some { group_ids := ["abc"] }, id := 1,
        error := none }
      { group_ids := ["abc"] } (by rfl) rfl).2.1 "abc" [] rfl (by rfl),
   (C4_create_id_extraction.1
      (.obj [("jsonrpc", .str "2.0"), ("id", .num 1),
        ("result", .obj [("groupids", .arr [.str "186"])])])
      { jsonrpc := "2.0", result := some { group_ids := ["186"] }, id := 1,
        error := none }
      { group_ids := ["186"] } (by rfl) rfl).2.2 "186" [] 186 rfl (by rfl)⟩

/-- C5 counterexample: the claim that the empty-id-list condition and the
non-numeric parse-failure condition are distinguishable from each other in
the returned error value is false: at an empty id list and at the
non-numeric id "abc", `create_host_group` returns the very same value,
the single catch-all `ZabbixApiError::Error` variant. -/
theorem C5_counterexample_same_error_value :
    create_host_group (.ok { status := 200, body := .obj [("jsonrpc", .str "2.0"),
        ("id", .num 1), ("result", .obj [("groupids", .arr [])])] }) =
      .error .Error ∧
    create_host_group (.ok { status := 200, body := .obj [("jsonrpc", .str "2.0"),
        ("id", .num 1), ("result", .obj [("groupids", .arr [.str "abc"])])] }) =
      .error .Error ∧
    create_host_group (.ok { status := 200, body := .obj [("jsonrpc", .str "2.0"),
        ("id", .num 1), ("result", .obj [("groupids", .arr [])])] }) =
    create_host_group (.ok { status := 200, body := .obj [("jsonrpc", .str "2.0"),
        ("id", .num 1), ("result", .obj [("groupids", .arr [.str "abc"])])] }) :=
  ⟨by rfl, by rfl, by rfl⟩

/-- C5 amended: the two local postprocessing conditions on create
operations both map to the single catch-all `ZabbixApiError::Error`
variant — they are not distinguishable from each other in the returned
error value — and that variant is distinct from the Network,
Unsupported/Invalid Payload, Bad Request and Remote Call error kinds, so
the caller can tell the local-postprocessing class (but not which of the
two conditions) occurred. -/
theorem C5_amended_local_error_single_variant :
    (∀ (body : Json) (resp : ZabbixApiResponse CreateHostGroupResponse)
      (cr : CreateHostGroupResponse),
      decodeResponse CreateHostGroupResponse decodeCreateHostGroupResponse body =
        .ok resp →
      resp.result = some cr →
      (cr.group_ids = [] →
        create_host_group (.ok { status := 200, body := body }) = .error .Error) ∧
      (∀ s rest, cr.group_ids = s :: rest → parseU32 s = none →
        create_host_group (.ok { status := 200, body := body }) =
          .error .Error)) ∧
    (∀ m : String, (ZabbixApiError.Error : ZabbixApiError) ≠ .NetworkError m) ∧
    (∀ m : String,
      (ZabbixApiError.Error : ZabbixApiError) ≠ .UnsupportedApiError m) ∧
    (ZabbixApiError.Error : ZabbixApiError) ≠ .BadRequestError ∧
    (∀ z : ZabbixError, (ZabbixApiError.Error : ZabbixApiError) ≠ .ApiCallError z) := by
  refine ⟨?_, ?_, ?_, ?_, ?_⟩
  · intro body resp cr hdec hres
    refine ⟨?_, ?_⟩
    · intro hids
      simp [create_host_group, send_post_request, hdec, hres, hids]
    · intro s rest hids hp
      simp [create_host_group, send_post_request, hdec, hres, hids, hp]
  · intro m h
    cases h
  · intro m h
    cases h
  · intro h
    cases h
  · intro z h
    cases h

/-- Witness for the amended C5 at a concrete empty id list. -/
theorem C5_amended_local_error_single_variant_witness :
    create_host_group (.ok { status := 200, body := .obj [("jsonrpc", .str "2.0"),
        ("id", .num 7), ("result", .obj [("groupids", .arr [])])] }) =
      .error .Error :=
  (C5_amended_local_error_single_variant.1
    (.obj [("jsonrpc", .str "2.0"), ("id", .num 7),
      ("result", .obj [("groupids", .arr [])])])
    { jsonrpc := "2.0", result := some { group_ids := [] }, id := 7,
      error := none }
    { group_ids := [] } (by rfl) rfl).1 rfl

/-- C6: for every HTTP exchange completing with a status other than 200,
`send_post_request` returns `BadRequestError` regardless of the body's
content (the body is never parsed: the same error results for every
body); for status 200 it returns the raw response body text unchanged. -/
theorem C6_send_post_request_status_policy :
    (∀ (status : Nat) (body : String), status ≠ 200 →
      send_post_request String (.ok { status := status, body := body }) =
        .error .BadRequestError) ∧
    (∀ body : String,
      send_post_request String (.ok { status := 200, body := body }) =
        .ok body) := by
  constructor
  · intro status body h
    simp [send_post_request, h]
  · intro body
    simp [send_post_request]

/-- Witness for C6 at a concrete server error status. -/
theorem C6_send_post_request_status_policy_witness :
    send_post_request String
      (.ok { status := 500, body := "<html>Internal Server Error</html>" }) =
      .error .BadRequestError :=
  C6_send_post_request_status_policy.1 500 "<html>Internal Server Error</html>"
    (by decide)

/-- C7: for every call carrying a session token, the v7 request body has
no auth key at all and the token is attached as the bearer credential of
the outgoing request; the v6 request body carries the token in its auth
field and no bearer credential is attached. -/
theorem C7_auth_placement_per_variant (T : Type) (serT : T → Json)
    (method : String) (params : T) (token : String) (B : Type) (body : B) :
    Json.hasField
      (serializeRequestV7 T serT (get_api_request_v7 T method params (some token)))
      "auth" = false ∧
    (build_http_request_v7 B body (some token)).bearer = some token ∧
    Json.getField
      (serializeRequestV6 T serT (get_api_request_v6 T method params (some token)))
      "auth" = some (.str token) ∧
    (build_http_request_v6 B body (some token)).bearer = none := by
  refine ⟨?_, rfl, ?_, rfl⟩
  · simp [Json.hasField, serializeRequestV7, get_api_request_v7]
  · simp [Json.getField, serializeRequestV6, get_api_request_v6, lookupField]

/-- C8: decoding fails only on structurally invalid input: a structurally
valid envelope (string "jsonrpc", in-range integer "id", decodable
optional "error") with the result field absent decodes successfully for
every result type; and a body that does not parse into the envelope shape
makes the dispatcher return `UnsupportedApiError`, never a success
result. -/
theorem C8_decode_failure_policy :
    (∀ (R : Type) (decodeR : Json → Except String R)
      (fields : List (String × Json)) (v : String) (i : Int)
      (eo : Option ZabbixError),
      lookupField fields "jsonrpc" = some (Json.str v) →
      lookupField fields "id" = some (Json.num i) →
      -128 ≤ i → i < 128 →
      lookupField fields "result" = none →
      decodeOptField ZabbixError decodeZabbixError fields "error" = .ok eo →
      decodeResponse R decodeR (.obj fields) =
        .ok { jsonrpc := v, result := none, id := i, error := eo }) ∧
    (∀ (R : Type) (decodeR : Json → Except String R) (body : Json) (m : String),
      decodeResponse R decodeR body = .error m →
      raw_api_call R decodeR (.ok { status := 200, body := body }) =
        .error (.UnsupportedApiError m) ∧
      ∀ resp : ZabbixApiResponse R,
        raw_api_call R decodeR (.ok { status := 200, body := body }) ≠
          .ok resp) := by
  constructor
  · intro R decodeR fields v i eo hv hi hlo hhi hr he
    exact decodeResponse_of_fields R decodeR fields v i eo hv hi hlo hhi hr he
  · intro R decodeR body m h
    constructor
    · simp [raw_api_call, send_post_request, h]
    · intro resp
      simp [raw_api_call, send_post_request, h]

/-- Witness for C8: a result-less envelope decodes, and a non-object body
surfaces as the invalid-payload error. -/
theorem C8_decode_failure_policy_witness :
    decodeResponse String decodeString
      (.obj [("jsonrpc", .str "2.0"), ("id", .num 1)]) =
      .ok { jsonrpc := "2.0", result := none, id := 1, error := none } ∧
    raw_api_call String decodeString
      (.ok { status := 200, body := .str "Zabbix access denied" }) =
      .error (.UnsupportedApiError "expected object") :=
  ⟨C8_decode_failure_policy.1 String decodeString
    [("jsonrpc", .str "2.0"), ("id", .num 1)] "2.0" 1 none
    rfl rfl (by decide) (by decide) rfl (by rfl),
   (C8_decode_failure_policy.2 String decodeString (.str "Zabbix access denied")
     "expected object" (by rfl)).1⟩

/-- C9: on an ill-formed envelope carrying both a result value and an
error detail, every dispatcher operation checks the result branch first:
it returns success based on the result and the error detail never
reaches the caller as a failure (for the typed operations the error is
discarded outright; the raw passthrough returns the whole envelope as
success). -/
theorem C9_result_branch_precedence :
    (∀ (R : Type) (decodeR : Json → Except String R) (body : Json)
      (resp : ZabbixApiResponse R) (r : R) (e : ZabbixError),
      decodeResponse R decodeR body = .ok resp →
      resp.result = some r → resp.error = some e →
      raw_api_call R decodeR (.ok { status := 200, body := body }) = .ok resp) ∧
    (∀ (R : Type) (decodeR : Json → Except String R) (body : Json)
      (resp : ZabbixApiResponse R) (r : R) (e : ZabbixError),
      decodeResponse R decodeR body = .ok resp →
      resp.result = some r → resp.error = some e →
      typed_get_call R decodeR (.ok { status := 200, body := body }) = .ok r) ∧
    (∀ (body : Json) (resp : ZabbixApiResponse String) (r : String)
      (e : ZabbixError),
      decodeResponse String decodeString body = .ok resp →
      resp.result = some r → resp.error = some e →
      get_api_info (.ok { status := 200, body := body }) = .ok r) ∧
    (∀ (body : Json) (resp : ZabbixApiResponse String) (r : String)
      (e : ZabbixError),
      decodeResponse String decodeString body = .ok resp →
      resp.result = some r → resp.error = some e →
      get_auth_session (.ok { status := 200, body := body }) = .ok r) ∧
    (∀ (body : Json) (resp : ZabbixApiResponse (List ZabbixHostGroup))
      (r : List ZabbixHostGroup) (e : ZabbixError),
      decodeResponse (List ZabbixHostGroup) decodeZabbixHostGroupList body =
        .ok resp →
      resp.result = some r → resp.error = some e →
      get_host_groups (.ok { status := 200, body := body }) = .ok r) ∧
    (∀ (body : Json) (resp : ZabbixApiResponse CreateHostGroupResponse)
      (cr : CreateHostGroupResponse) (s : String) (rest : List String)
      (n : Nat) (e : ZabbixError),
      decodeResponse CreateHostGroupResponse decodeCreateHostGroupResponse body =
        .ok resp →
      resp.result = some cr → resp.error = some e →
      cr.group_ids = s :: rest → parseU32 s = some n →
      create_host_group (.ok { status := 200, body := body }) = .ok n) := by
  refine ⟨?_, ?_, ?_, ?_, ?_, ?_⟩
  · intro R decodeR body resp r e hdec hres herr
    simp [raw_api_call, send_post_request, hdec, hres]
  · intro R decodeR body resp r e hdec hres herr
    simp [typed_get_call, send_post_request, hdec, hres]
  · intro body resp r e hdec hres herr
    simp [get_api_info, send_post_request, hdec, hres]
  · intro body resp r e hdec hres herr
    simp [get_auth_session, send_post_request, hdec, hres]
  · intro body resp r e hdec hres herr
    simp [get_host_groups, send_post_request, hdec, hres]
  · intro body resp cr s rest n e hdec hres herr hids hp
    simp [create_host_group, send_post_request, hdec, hres, hids, hp]

/-- Witness for C9 at concrete envelopes carrying both fields. -/
theorem C9_result_branch_precedence_witness :
    get_auth_session (.ok { status := 200, body := .obj [("jsonrpc", .str "2.0"),
        ("id", .num 1), ("result", .str "0424bd59b807674191e7d77572075f33"),
        ("error", .obj [("code", .num (-32500)),
          ("message", .str "Application error."), ("data", .str "ignored")])] }) =
      .ok "0424bd59b807674191e7d77572075f33" ∧
    create_host_group (.ok { status := 200, body := .obj [("jsonrpc", .str "2.0"),
        ("id", .num 1), ("result", .obj [("groupids", .arr [.str "42"])]),
        ("error", .obj [("code", .num (-32500)),
          ("message", .str "Application error."), ("data", .str "ignored")])] }) =
      .ok 42 :=
  ⟨C9_result_branch_precedence.2.2.2.1
    (.obj [("jsonrpc", .str "2.0"), ("id", .num 1),
      ("result", .str "0424bd59b807674191e7d77572075f33"),
      ("error", .obj [("code", .num (-32500)),
        ("message", .str "Application error."), ("data", .str "ignored")])])
    { jsonrpc := "2.0", result := some "0424bd59b807674191e7d77572075f33",
      id := 1,
      error := some { code := -32500, message := "Application error.",
                      data := "ignored" } }
    "0424bd59b807674191e7d77572075f33"
    { code := -32500, message := "Application error.", data := "ignored" }
    (by rfl) rfl rfl,
   C9_result_branch_precedence.2.2.2.2.2
    (.obj [("jsonrpc", .str "2.0"), ("id", .num 1),
      ("result", .obj [("groupids", .arr [.str "42"])]),
      ("error", .obj [("code", .num (-32500)),
        ("message", .str "Application error."), ("data", .str "ignored")])])
    { jsonrpc := "2.0", result := some { group_ids := ["42"] }, id := 1,
      error := some { code := -32500, message := "Application error.",
                      data := "ignored" } }
    { group_ids := ["42"] } "42" [] 42
    { code := -32500, message := "Application error.", data := "ignored" }
    (by rfl) rfl rfl rfl (by rfl)⟩

/-- Any successful u32 parse is bounded by the 32-bit unsigned range. -/
theorem parseU32_some_lt (s : String) (n : Nat) (h : parseU32 s = some n) :
    n < 4294967296 := by
  unfold parseU32 at h
  split at h
  · simp at h
  · split at h
    · split at h
      next hlt =>
        injection h with h2
        omega
      next => simp at h
    · simp at h

/-- C10: id parsing on create operations is bounded to u32: the decimal
string "4294967296" (the smallest out-of-range value) is rejected by the
parser and makes every create operation fail with the same local
`ZabbixApiError::Error` value as a non-numeric string, and every
successful id extraction (shown for `create_host_group` over an arbitrary
exchange) yields a value strictly below 2 to the 32nd. -/
theorem C10_id_parse_bounded_to_u32 :
    parseU32 "4294967296" = none ∧
    (∀ (s : String) (n : Nat), parseU32 s = some n → n < 4294967296) ∧
    (∀ (body : Json) (resp : ZabbixApiResponse CreateHostGroupResponse)
      (cr : CreateHostGroupResponse) (rest : List String),
      decodeResponse CreateHostGroupResponse decodeCreateHostGroupResponse body =
        .ok resp →
      resp.result = some cr → cr.group_ids = "4294967296" :: rest →
      create_host_group (.ok { status := 200, body := body }) = .error .Error) ∧
    (∀ (body : Json) (resp : ZabbixApiResponse CreateHostResponse)
      (cr : CreateHostResponse) (rest : List String),
      decodeResponse CreateHostResponse decodeCreateHostResponse body = .ok resp →
      resp.result = some cr → cr.host_ids = "4294967296" :: rest →
      create_host (.ok { status := 200, body := body }) = .error .Error) ∧
    (∀ (body : Json) (resp : ZabbixApiResponse CreateItemResponse)
      (cr : CreateItemResponse) (rest : List String),
      decodeResponse CreateItemResponse decodeCreateItemResponse body = .ok resp →
      resp.result = some cr → cr.item_ids = "4294967296" :: rest →
      create_item (.ok { status := 200, body := body }) = .error .Error) ∧
    (∀ (body : Json) (resp : ZabbixApiResponse CreateTriggerResponse)
      (cr : CreateTriggerResponse) (rest : List String),
      decodeResponse CreateTriggerResponse decodeCreateTriggerResponse body =
        .ok resp →
      resp.result = some cr → cr.trigger_ids = "4294967296" :: rest →
      create_trigger (.ok { status := 200, body := body }) = .error .Error) ∧
    (∀ (body : Json) (resp : ZabbixApiResponse CreateWebScenarioResponse)
      (cr : CreateWebScenarioResponse) (rest : List String),
      decodeResponse CreateWebScenarioResponse decodeCreateWebScenarioResponse
        body = .ok resp →
      resp.result = some cr → cr.http_test_ids = "4294967296" :: rest →
      create_webscenario (.ok { status := 200, body := body }) = .error .Error) ∧
    (∀ (exchange : Except String (HttpResponse Json)) (n : Nat),
      create_host_group exchange = .ok n → n < 4294967296) := by
  have hover : parseU32 "4294967296" = none := by rfl
  refine ⟨hover, ?_, ?_, ?_, ?_, ?_, ?_, ?_⟩
  · intro s n h
    exact parseU32_some_lt s n h
  · intro body resp cr rest hdec hres hids
    simp [create_host_group, send_post_request, hdec, hres, hids, hover]
  · intro body resp cr rest hdec hres hids
    simp [create_host, send_post_request, hdec, hres, hids, hover]
  · intro body resp cr rest hdec hres hids
    simp [create_item, send_post_request, hdec, hres, hids, hover]
  · intro body resp cr rest hdec hres hids
    simp [create_trigger, send_post_request, hdec, hres, hids, hover]
  · intro body resp cr rest hdec hres hids
    simp [create_webscenario, send_post_request, hdec, hres, hids, hover]
  · intro exchange n h
    unfold create_host_group at h
    split at h
    · simp at h
    · split at h
      · simp at h
      · split at h
        · split at h
          · split at h
            next v heq =>
              injection h with h2
              subst h2
              exact parseU32_some_lt _ _ heq
            next => simp at h
          · simp at h
        · split at h
          · simp at h
          · simp at h

/-- Witness for C10: at a concrete over-range envelope the create fails
with the local error, equal to the non-numeric case. -/
theorem C10_id_parse_bounded_to_u32_witness :
    create_host_group (.ok { status := 200, body := .obj [("jsonrpc", .str "2.0"),
        ("id", .num 1),
        ("result", .obj [("groupids", .arr [.str "4294967296"])])] }) =
      .error .Error :=
  C10_id_parse_bounded_to_u32.2.2.1
    (.obj [("jsonrpc", .str "2.0"), ("id", .num 1),
      ("result", .obj [("groupids", .arr [.str "4294967296"])])])
    { jsonrpc := "2.0", result := some { group_ids := ["4294967296"] },
      id := 1, error := none }
    { group_ids := ["4294967296"] } [] (by rfl) rfl rfl

end ZabbixApi
